import Mathlib

/-!
Verification of the connection & privilege-elevation broker of the osdctl
integration-test slice, against its natural-language specification.

Embedded source files:
  * `cmd/hive/loginhivetests.go` — the `run` sequence of the hive-login
    integration test (modelled as `HiveLogin.run` over an oracle `World`).
  * the config command (`getConfigSource`, `compareValues`) — modelled in
    namespace `ConfigSource`.

Functions of `pkg/utils` and `pkg/k8s` whose implementations are not part of
the available sources (only their tests and callers are) are modelled from the
spec, each marked `Modelled from the spec:` in its doc comment.
-/

namespace Broker

/-- Error values are carried as plain strings, matching Go `error` messages. -/
abbrev Err := String

/-- Cluster record as observed through the OCM SDK: an internal id and a
display name are the two fields `run` reads (`cluster.ID()`, `cluster.Name()`). -/
structure Cluster where
  id : String
  name : String
deriving DecidableEq, Repr

/-- OCM configuration document, mirroring `ocm-common` `config.Config` fields
used by the repository: access token, refresh token, URL, client id/secret. -/
structure Config where
  accessToken : String
  refreshToken : String
  url : String
  clientID : String
  clientSecret : String
deriving DecidableEq, Repr

/-! ### Identifier classification (ClusterLocator) -/

/-- Lowercase-alphanumeric character test used by the internal-id shape rule:
code points 97..122 are the lowercase letters, 48..57 the digits. -/
def isLowerAlnum (c : Char) : Bool :=
  (97 ≤ c.toNat && c.toNat ≤ 122) || (48 ≤ c.toNat && c.toNat ≤ 57)

/-- Hexadecimal digit test for the RFC4122 UUID shape rule: digits, the
lowercase letters up to code point 102, and the uppercase letters 65..70. -/
def isHexDigitChar (c : Char) : Bool :=
  (48 ≤ c.toNat && c.toNat ≤ 57) || (97 ≤ c.toNat && c.toNat ≤ 102) ||
  (65 ≤ c.toNat && c.toNat ≤ 70)

/-- Modelled from the spec: classification rule 1 of `GenerateQuery`
(`pkg/utils`, implementation not under the available sources; behavior fixed
by spec rule "Exactly 32 lowercase alphanumeric characters → InternalID" and
by `TestGenerateQuery`): a string of exactly 32 lowercase alphanumeric
characters. -/
def isInternalIDShape (s : String) : Bool :=
  s.length == 32 && s.toList.all isLowerAlnum

/-- Splits a character list on the dash character (code point 45), keeping
empty segments, like splitting a string on the separator. -/
def splitDash : List Char → List Char → List (List Char)
  | [], acc => [acc.reverse]
  | c :: rest, acc =>
      if c.toNat = 45 then acc.reverse :: splitDash rest []
      else splitDash rest (c :: acc)

/-- Modelled from the spec: classification rule 2 of `GenerateQuery`
("RFC4122 UUID shape → ExternalID"): five dash-separated groups of hex digits
with lengths 8-4-4-4-12. -/
def isUUIDShape (s : String) : Bool :=
  match splitDash s.toList [] with
  | [a, b, c, d, e] =>
      a.length == 8 && b.length == 4 && c.length == 4 && d.length == 4 &&
      e.length == 12 && (a ++ b ++ c ++ d ++ e).all isHexDigitChar
  | _ => false

/-- Tagged variant over the three identifier query strategies, from the spec
data model (`ClusterIdentifierQuery`). -/
inductive ClusterIdentifierQuery where
  | internalID (s : String)
  | externalID (s : String)
  | displayNamePattern (s : String)
deriving DecidableEq, Repr

/-- Modelled from the spec: `GenerateQuery` (`pkg/utils`, implementation not
under the available sources). Classification is total, first match wins:
32 lowercase alphanumerics → internal-id exact match; RFC4122 UUID shape →
external-id match; otherwise display-name substring pattern. -/
def GenerateQuery (s : String) : ClusterIdentifierQuery :=
  if isInternalIDShape s then .internalID s
  else if isUUIDShape s then .externalID s
  else .displayNamePattern s

/-! ### Config loading from a file path -/

/-- Outcome of loading an OCM config from a file, with the three failure modes
named by `TestGetOcmConfigFromFilePath`. -/
inductive LoadResult where
  | fileNotFound
  | emptyFile
  | parseError
  | ok (cfg : Config)
deriving DecidableEq, Repr

/-- Modelled from the spec: `GetOcmConfigFromFilePath` (`pkg/utils`,
implementation not under the available sources; behavior fixed by §4.2
FromFile and `TestGetOcmConfigFromFilePath`). The filesystem is abstracted as
`readFile` (`none` = unreadable) and JSON decoding as `parseConfig`
(`none` = malformed). Fails with file-not-found if unreadable, empty-file if
zero length, parse error if malformed; returns a config only from a full
successful parse. -/
def GetOcmConfigFromFilePath (readFile : String → Option String)
    (parseConfig : String → Option Config) (path : String) : LoadResult :=
  match readFile path with
  | none => .fileNotFound
  | some s =>
      if s.length = 0 then .emptyFile
      else
        match parseConfig s with
        | none => .parseError
        | some cfg => .ok cfg

/-! ### SDK connection builder from a config -/

/-- SDK connection builder, carrying the config it was built from. -/
structure ConnBuilder where
  cfg : Config
deriving DecidableEq, Repr

/-- Modelled from the spec: `GetOCMSdkConnBuilderFromConfig` (`pkg/utils`,
implementation not under the available sources; behavior fixed by "Fails with
InvalidConfigError if cfg is nil/empty" and `TestGetOCMSdkConnBuilderFromConfig`).
A nil config (`none`) yields a typed error without any field access; the
function is total, so no nil value is ever dereferenced. -/
def GetOCMSdkConnBuilderFromConfig (cfg : Option Config) : Except Err ConnBuilder :=
  match cfg with
  | none => .error "InvalidConfigError: nil config"
  | some c => .ok ⟨c⟩

/-! ### Elevated client construction -/

/-- Elevated kube client, bound to the cluster id it was built for and the
elevation reason it carries. -/
structure ElevatedClient where
  clusterID : String
  reason : String
deriving DecidableEq, Repr

/-- Modelled from the spec: `k8s.NewAsBackplaneClusterAdminWithConn`
(`pkg/k8s`, implementation not under the available sources; behavior fixed by
"reason must be non-empty — ValidationError otherwise, raised before any
network call"). The first component lists the network calls performed; the
login outcome of the backplane exchange is abstracted as `loginResult`. -/
def newElevatedClient (clusterID : String) (reason : String)
    (loginResult : Except Err Unit) : List String × Except Err ElevatedClient :=
  if reason.length = 0 then
    ([], .error "ValidationError: elevation reason must be non-empty")
  else
    match loginResult with
    | .error e => (["backplane-login"], .error e)
    | .ok _ => (["backplane-login"], .ok ⟨clusterID, reason⟩)

end Broker

namespace ConfigSource

/-- State of one configuration key across the four value sources of the spec:
explicit override (viper Set / flags), environment variable, config file,
default. -/
structure KeyState where
  explicitVal : Option String
  envVal : Option String
  fileVal : Option String
  defaultVal : Option String
deriving DecidableEq, Repr

/-- Value viper resolves for the key, following the precedence order the
source documents in `getConfigSource` (explicit Set / flags, then environment
variables, then config file, then defaults). -/
def viperResolve (ks : KeyState) : Option String :=
  ks.explicitVal <|> ks.envVal <|> ks.fileVal <|> ks.defaultVal

/-- Value comparison of the config command: both sides are rendered to strings
and compared for equality (`compareValues` in the source); values are already
strings here. -/
def compareValues (v1 v2 : String) : Bool := v1 == v2

/-- Source reporting of the config command, translated from `getConfigSource`:
environment wins when the env var is set and equals the resolved value, then
the config file when it holds an equal value, then two coarse other buckets. -/
def getConfigSource (viperValue : String) (envValue fileValue : Option String) :
    String :=
  match envValue with
  | some ev =>
      if compareValues ev viperValue then "environment"
      else
        match fileValue with
        | some cv =>
            if compareValues cv viperValue then "config file"
            else "other (flags/explicit set/default)"
        | none => "other (flags/explicit set/default)"
  | none =>
      match fileValue with
      | some cv =>
          if compareValues cv viperValue then "config file"
          else "other (flags/explicit set/default)"
      | none => "default/runtime set"

/-- The four source kinds of the spec precedence order. -/
inductive SourceKind where
  | explicitOverride
  | environment
  | configFile
  | defaultSource
deriving DecidableEq, Repr

/-- Follows the claim wording: the highest-precedence source in which the key
is actually set, in the fixed order explicit override > environment variable >
config file > default; `none` when the key is set nowhere. -/
def specHighestSource (ks : KeyState) : Option SourceKind :=
  if ks.explicitVal.isSome then some .explicitOverride
  else if ks.envVal.isSome then some .environment
  else if ks.fileVal.isSome then some .configFile
  else if ks.defaultVal.isSome then some .defaultSource
  else none

/-- Mapping from the strings `getConfigSource` emits back to source kinds;
the two "other" buckets name no single source and map to `none`. -/
def reportedKind (s : String) : Option SourceKind :=
  if s == "environment" then some .environment
  else if s == "config file" then some .configFile
  else if s == "default/runtime set" then some .defaultSource
  else none

/-- Source the config command reports for a key state: `getConfigSource`
applied to the viper-resolved value (rendered, a missing value printing as the
Go nil rendering) and the raw env / config-file values. -/
def reportFor (ks : KeyState) : String :=
  getConfigSource ((viperResolve ks).getD "<nil>") ks.envVal ks.fileVal

end ConfigSource

namespace HiveLogin

open Broker

/-- External calls the hive-login `run` makes, in source order, each carrying
the identifier arguments the source passes at that call site. -/
inductive Step where
  | createConnection
  | getClusterAnyStatus (id : String)
  | getOcmConfigFromFilePath (path : String)
  | getOCMConfigFromEnv
  | getOCMSdkConnBuilderFromConfig (cfg : Config)
  | hiveBuilderBuild
  | getHiveCluster (id : String)
  | getHiveClusterWithConn (id : String)
  | k8sNew (id : String)
  | dumpClusterOperators (site : Nat)
  | k8sNewWithConn (id : String)
  | k8sNewAdmin (id : String) (reason : String)
  | getClusterDeployment (id : String)
  | getKubeConfigAndClient (id : String) (reason : Option String)
  | getKubeConfigAndClientWithConn (id : String) (reason : Option String)
  | listNamespaces
  | listPods
  | getHiveBPForCluster (id : String) (reason : String) (url : String)
deriving DecidableEq, Repr

/-- The two SDK connections `run` itself opens: `ocmClient` (target) from
`utils.CreateConnection`, and the hive connection from `hiveBuilder.Build()`. -/
inductive ConnName where
  | target
  | hive
deriving DecidableEq, Repr

/-- Oracle for one invocation: the flag and viper inputs, and the outcome of
every external call `run` performs, one field per call site
(`dumpClusterOperators` sites are indexed 1..8 in source order). -/
structure World where
  clusterIDFlag : String
  hiveOcmURLFlag : String
  hiveOcmConfigPath : String
  viperHiveOcmURL : String
  createConnectionR : Except Err Unit
  getClusterAnyStatusR : Except Err Cluster
  getOcmConfigFromFilePathR : Except Err Config
  getOCMConfigFromEnvR : Except Err Config
  getOCMSdkConnBuilderR : Except Err Unit
  hiveBuilderBuildR : Except Err Unit
  getHiveClusterR : Except Err Unit
  getHiveClusterWithConnR : Except Err Cluster
  k8sNewR : Except Err Unit
  k8sNewWithConnR : Except Err Unit
  k8sNewAdminR : Except Err Unit
  getClusterDeployment1R : Except Err Unit
  getClusterDeployment2R : Except Err Unit
  kubeCfgClientR : Except Err Unit
  kubeCfgClientWithConnR : Except Err Unit
  kubeCfgClientElevR : Except Err Unit
  kubeCfgClientWithConnElevR : Except Err Unit
  listNamespaces1R : Except Err Unit
  listNamespaces2R : Except Err Unit
  listPods1R : Except Err Unit
  listPods2R : Except Err Unit
  getHiveBP1R : Except Err Unit
  getHiveBP2R : Except Err Unit
  dumpCOR : Nat → Except Err Unit

/-- Observable outcome of one `run`: the steps attempted in order, the SDK
connections opened and closed by `run` itself, the OCM config handed to the
hive connection build (when one was), whether the hive connection reused the
target connection (`none` while the choice was never reached), and the final
result. -/
structure RunResult where
  steps : List Step
  opened : List ConnName
  closed : List ConnName
  hiveConfigUsed : Option Config
  hiveReused : Option Bool
  result : Except Err Unit
deriving Repr

/-- Elevation reason `run` hard-codes into `o.reason`. -/
def adminReason : String := "Testing osdctl clients with cluster admin"

/-- Reason literal of the second `GetHiveBPForCluster` call. -/
def hiveBPReason : String := "Testing hive client backplane connections"

/-- Whether an error returned by the call is checked (`if err != nil`) or
discarded by the source before the next call. -/
inductive ActKind where
  | checked
  | discarded
deriving DecidableEq, Repr

/-- One call of the linear test phase: the step, its oracle outcome, and
whether the source checks the returned error. -/
structure Act where
  step : Step
  result : Except Err Unit
  kind : ActKind

/-- Executes a linear sequence of calls the way the source does: a checked
error stops the sequence (fail-fast `return err`); a discarded error is
overwritten before inspection and the sequence continues. -/
def runSeq : List Act → List Step × Except Err Unit
  | [] => ([], .ok ())
  | a :: rest =>
      match a.kind, a.result with
      | .checked, .error e => ([a.step], .error e)
      | _, _ => (a.step :: (runSeq rest).1, (runSeq rest).2)

/-- The test phase of `run` (everything after the hive cluster is fetched),
translated call by call from the source. The four `GetKubeConfigAndClient`
variants have their returned error immediately overwritten by the following
`dumpClusterOperators` assignment in the source, hence `discarded`. -/
def testActs (w : World) (clusterID : String) (hc : Cluster) (effURL : String) :
    List Act :=
  [ ⟨.k8sNew clusterID, w.k8sNewR, .checked⟩,
    ⟨.dumpClusterOperators 1, w.dumpCOR 1, .checked⟩,
    ⟨.k8sNewWithConn hc.id, w.k8sNewWithConnR, .checked⟩,
    ⟨.dumpClusterOperators 2, w.dumpCOR 2, .checked⟩,
    ⟨.k8sNewAdmin hc.id adminReason, w.k8sNewAdminR, .checked⟩,
    ⟨.getClusterDeployment clusterID, w.getClusterDeployment1R, .checked⟩,
    ⟨.getKubeConfigAndClient clusterID none, w.kubeCfgClientR, .discarded⟩,
    ⟨.dumpClusterOperators 3, w.dumpCOR 3, .checked⟩,
    ⟨.listNamespaces, w.listNamespaces1R, .checked⟩,
    ⟨.getKubeConfigAndClientWithConn clusterID none, w.kubeCfgClientWithConnR, .discarded⟩,
    ⟨.dumpClusterOperators 4, w.dumpCOR 4, .checked⟩,
    ⟨.listNamespaces, w.listNamespaces2R, .checked⟩,
    ⟨.getKubeConfigAndClient clusterID (some adminReason), w.kubeCfgClientElevR, .discarded⟩,
    ⟨.dumpClusterOperators 5, w.dumpCOR 5, .checked⟩,
    ⟨.listPods, w.listPods1R, .checked⟩,
    ⟨.getKubeConfigAndClientWithConn clusterID (some adminReason), w.kubeCfgClientWithConnElevR, .discarded⟩,
    ⟨.dumpClusterOperators 6, w.dumpCOR 6, .checked⟩,
    ⟨.listPods, w.listPods2R, .checked⟩,
    ⟨.getHiveBPForCluster clusterID "" effURL, w.getHiveBP1R, .checked⟩,
    ⟨.dumpClusterOperators 7, w.dumpCOR 7, .checked⟩,
    ⟨.getHiveBPForCluster clusterID hiveBPReason effURL, w.getHiveBP2R, .checked⟩,
    ⟨.dumpClusterOperators 8, w.dumpCOR 8, .checked⟩,
    ⟨.getClusterDeployment clusterID, w.getClusterDeployment2R, .checked⟩ ]

/-- Hive OCM config computation of `run` (source lines building `hiveOCMCfg`):
a set config-file path loads the config from the file; a set URL override then
replaces the URL field of that config, falling back to the environment config
as base when no file path was given. Returns the steps taken and either the
config (`none` when neither input was set) or the first error. -/
def buildHiveCfg (w : World) (effURL : String) :
    List Step × Except Err (Option Config) :=
  if w.hiveOcmConfigPath.length > 0 then
    match w.getOcmConfigFromFilePathR with
    | .error e => ([.getOcmConfigFromFilePath w.hiveOcmConfigPath], .error e)
    | .ok cfg =>
        if effURL.length > 0 then
          ([.getOcmConfigFromFilePath w.hiveOcmConfigPath],
            .ok (some { cfg with url := effURL }))
        else ([.getOcmConfigFromFilePath w.hiveOcmConfigPath], .ok (some cfg))
  else
    if effURL.length > 0 then
      match w.getOCMConfigFromEnvR with
      | .error e => ([.getOCMConfigFromEnv], .error e)
      | .ok envCfg => ([.getOCMConfigFromEnv], .ok (some { envCfg with url := effURL }))
    else ([], .ok none)

/-- Remainder of `run` once the hive connection is decided: fetch the hive
cluster through `GetHiveClusterWithConn`, then execute the test phase. -/
def afterHiveConn (w : World) (effURL : String) (clusterID : String)
    (prevSteps : List Step) (opened : List ConnName)
    (cfgUsed : Option Config) (reused : Option Bool) : RunResult :=
  match w.getHiveClusterWithConnR with
  | .error e =>
      ⟨prevSteps ++ [.getHiveClusterWithConn clusterID], opened, [], cfgUsed, reused, .error e⟩
  | .ok hc =>
      ⟨prevSteps ++ [.getHiveClusterWithConn clusterID] ++
          (runSeq (testActs w clusterID hc effURL)).1,
        opened, [], cfgUsed, reused, (runSeq (testActs w clusterID hc effURL)).2⟩

/-- Hive connection selection of `run`: with a config present, a builder is
created from it and `Build()` opens a separate hive connection (which the
source never closes); with no config, the target connection is reused and the
legacy `GetHiveCluster` lookup is exercised first. -/
def runHivePhase (w : World) (effURL : String) (clusterID : String) : RunResult :=
  match buildHiveCfg w effURL with
  | (s1, .error e) => ⟨s1, [], [], none, none, .error e⟩
  | (s1, .ok none) =>
      match w.getHiveClusterR with
      | .error e =>
          ⟨s1 ++ [.getHiveCluster clusterID], [], [], none, some true, .error e⟩
      | .ok _ =>
          afterHiveConn w effURL clusterID (s1 ++ [.getHiveCluster clusterID]) []
            none (some true)
  | (s1, .ok (some cfg)) =>
      match w.getOCMSdkConnBuilderR with
      | .error e =>
          ⟨s1 ++ [.getOCMSdkConnBuilderFromConfig cfg], [], [], some cfg, none, .error e⟩
      | .ok _ =>
          match w.hiveBuilderBuildR with
          | .error e =>
              ⟨s1 ++ [.getOCMSdkConnBuilderFromConfig cfg, .hiveBuilderBuild], [], [],
                some cfg, none, .error e⟩
          | .ok _ =>
              afterHiveConn w effURL clusterID
                (s1 ++ [.getOCMSdkConnBuilderFromConfig cfg, .hiveBuilderBuild])
                [.hive] (some cfg) (some false)

/-- Effective hive OCM URL of one run: the flag when set, otherwise the value
of the viper key `hive_ocm_url` (source lines mutating `o.hiveOcmURL`). -/
def effectiveHiveURL (w : World) : String :=
  if w.hiveOcmURLFlag.length > 0 then w.hiveOcmURLFlag else w.viperHiveOcmURL

/-- The hive-login `run`, translated from the source: compute the effective
hive URL (flag, falling back to the viper key `hive_ocm_url`), open the target
connection (closed by `defer` on every later exit path), resolve the target
cluster and switch to its internal id, then the hive phase and test phase. -/
def run (w : World) : RunResult :=
  let effURL := effectiveHiveURL w
  match w.createConnectionR with
  | .error e => ⟨[.createConnection], [], [], none, none, .error e⟩
  | .ok _ =>
      let r :=
        match w.getClusterAnyStatusR with
        | .error e =>
            RunResult.mk [Step.getClusterAnyStatus w.clusterIDFlag] [] [] none none
              (.error e)
        | .ok cluster =>
            let r2 := runHivePhase w effURL cluster.id
            { r2 with steps := Step.getClusterAnyStatus w.clusterIDFlag :: r2.steps }
      { r with
          steps := Step.createConnection :: r.steps
          opened := ConnName.target :: r.opened
          closed := r.closed ++ [ConnName.target] }

/-- Target-cluster identifier argument of a step, for the steps that reference
the target cluster: hive discovery, the target client builds, the clientset
builds, the hive backplane builds and the cluster-deployment lookups. The
steps that pass the hive cluster id (`k8sNewWithConn`, `k8sNewAdmin`) and the
resolution step itself are excluded. -/
def targetIdOf : Step → Option String
  | .getHiveCluster i => some i
  | .getHiveClusterWithConn i => some i
  | .k8sNew i => some i
  | .getClusterDeployment i => some i
  | .getKubeConfigAndClient i _ => some i
  | .getKubeConfigAndClientWithConn i _ => some i
  | .getHiveBPForCluster i _ _ => some i
  | _ => none

end HiveLogin

namespace Broker

/-- Nonempty strings have positive length. -/
theorem length_pos_of_ne_empty {s : String} (h : s ≠ "") : 0 < s.length := by
  rcases s with ⟨data⟩
  cases data with
  | nil => exact absurd rfl h
  | cons a l => simp [String.length]

/-- A string of length zero is the empty string. -/
theorem eq_empty_of_length_eq_zero {s : String} (h : s.length = 0) : s = "" := by
  rcases s with ⟨data⟩
  cases data with
  | nil => rfl
  | cons a l => simp [String.length] at h

end Broker

open Broker ConfigSource HiveLogin

/-- C2: identifier classification is total and deterministic, maps every
string to exactly one of the three query strategies with the string preserved,
routes a 32-character lowercase-alphanumeric string to the internal-id
exact-match query, an RFC4122-UUID-shaped string to the external-id match
query, and everything else — including 31- and 33-character alphanumeric
strings and a 32-character string containing an uppercase letter — to the
display-name substring query. -/
theorem C2_classification (s : String) :
    (GenerateQuery s = .internalID s ∨ GenerateQuery s = .externalID s ∨
      GenerateQuery s = .displayNamePattern s) ∧
    (isInternalIDShape s = true → GenerateQuery s = .internalID s) ∧
    (isInternalIDShape s = false → isUUIDShape s = true →
      GenerateQuery s = .externalID s) ∧
    (isInternalIDShape s = false → isUUIDShape s = false →
      GenerateQuery s = .displayNamePattern s) ∧
    GenerateQuery "261kalm3uob0vegg1c7h9o7r5k9t64ji" =
      .internalID "261kalm3uob0vegg1c7h9o7r5k9t64ji" ∧
    GenerateQuery "c1f562af-fb22-42c5-aa07-6848e1eeee9c" =
      .externalID "c1f562af-fb22-42c5-aa07-6848e1eeee9c" ∧
    GenerateQuery "hs-mc-773jpgko0" = .displayNamePattern "hs-mc-773jpgko0" ∧
    GenerateQuery "261kalm3uob0vegg1c7h9o7r5k9t64j" =
      .displayNamePattern "261kalm3uob0vegg1c7h9o7r5k9t64j" ∧
    GenerateQuery "261kalm3uob0vegg1c7h9o7r5k9t64jix" =
      .displayNamePattern "261kalm3uob0vegg1c7h9o7r5k9t64jix" ∧
    GenerateQuery "261kalm3uob0vegg1c7h9o7r5k9t64jI" =
      .displayNamePattern "261kalm3uob0vegg1c7h9o7r5k9t64jI" := by
  refine ⟨?_, ?_, ?_, ?_, by decide, by decide, by decide, by decide, by decide,
    by decide⟩
  · unfold GenerateQuery
    by_cases h1 : isInternalIDShape s
    · simp [h1]
    · by_cases h2 : isUUIDShape s <;> simp [h1, h2]
  · intro h; simp [GenerateQuery, h]
  · intro h1 h2; simp [GenerateQuery, h1, h2]
  · intro h1 h2; simp [GenerateQuery, h1, h2]

/-- Witness for C2 at a concrete display-name-shaped input. -/
theorem C2_classification_witness :
    GenerateQuery "abc" = .displayNamePattern "abc" :=
  (C2_classification "abc").2.2.2.1 (by decide) (by decide)

/-- C4: loading an OCM config from a file fails with the file-not-found error
when the file is unreadable, the empty-file error when it has zero length, and
the parse error when its content is malformed, and in every one of these
failure cases no partially populated config reaches the caller — a config is
returned only from a nonempty, successfully parsed file. -/
theorem C4_config_load_failures (readFile : String → Option String)
    (parseConfig : String → Option Config) (path : String) :
    (readFile path = none →
      GetOcmConfigFromFilePath readFile parseConfig path = .fileNotFound) ∧
    (readFile path = some "" →
      GetOcmConfigFromFilePath readFile parseConfig path = .emptyFile) ∧
    (∀ s, readFile path = some s → s ≠ "" → parseConfig s = none →
      GetOcmConfigFromFilePath readFile parseConfig path = .parseError) ∧
    (∀ cfg, GetOcmConfigFromFilePath readFile parseConfig path = .ok cfg →
      ∃ s, readFile path = some s ∧ s ≠ "" ∧ parseConfig s = some cfg) := by
  refine ⟨?_, ?_, ?_, ?_⟩
  · intro h; simp [GetOcmConfigFromFilePath, h]
  · intro h; simp [GetOcmConfigFromFilePath, h]
  · intro s h hne hp
    have : ¬ s.length = 0 := fun h0 => hne (eq_empty_of_length_eq_zero h0)
    simp [GetOcmConfigFromFilePath, h, this, hp]
  · intro cfg h
    unfold GetOcmConfigFromFilePath at h
    rcases hr : readFile path with _ | s
    · simp [hr] at h
    · rw [hr] at h
      by_cases h0 : s.length = 0
      · simp [h0] at h
      · rcases hp : parseConfig s with _ | c
        · simp [h0, hp] at h
        · simp [h0, hp] at h
          exact ⟨s, rfl, fun he => h0 (by simp [he]), by rw [hp, h]⟩

/-- Witness for C4 on a concrete two-file filesystem: a missing path fails
with file-not-found and a malformed file fails with the parse error. -/
theorem C4_config_load_failures_witness :
    GetOcmConfigFromFilePath (fun p => if p == "bad.json" then some "x" else none)
      (fun _ => none) "missing.json" = .fileNotFound ∧
    GetOcmConfigFromFilePath (fun p => if p == "bad.json" then some "x" else none)
      (fun _ => none) "bad.json" = .parseError :=
  ⟨(C4_config_load_failures _ _ "missing.json").1 rfl,
   (C4_config_load_failures _ _ "bad.json").2.2.1 "x" rfl (by decide) rfl⟩

/-- C6: building an elevated client with an empty elevation reason fails with
the validation error before any network call is performed (the network-call
list is empty) and returns no client, for every cluster and login outcome. -/
theorem C6_empty_reason_validation (clusterID : String)
    (loginResult : Except Err Unit) :
    newElevatedClient clusterID "" loginResult =
      ([], .error "ValidationError: elevation reason must be non-empty") := rfl

/-- C8: building an SDK connection builder from a nil config fails with the
typed invalid-config error, while a present config yields the builder carrying
exactly that config; the function is total, so the nil value is never
dereferenced. -/
theorem C8_nil_config_builder (c : Config) :
    GetOCMSdkConnBuilderFromConfig none = .error "InvalidConfigError: nil config" ∧
    GetOCMSdkConnBuilderFromConfig (some c) = .ok ⟨c⟩ :=
  ⟨rfl, rfl⟩

/-- C5 counterexample: for a key set by explicit override to a value that the
config file happens to hold identically (environment unset), the
highest-precedence set source is the explicit override, yet the config command
reports the config file as the source. -/
theorem C5_counterexample :
    specHighestSource ⟨some "x", none, some "x", none⟩ =
      some SourceKind.explicitOverride ∧
    reportedKind (reportFor ⟨some "x", none, some "x", none⟩) =
      some SourceKind.configFile ∧
    some SourceKind.configFile ≠ some SourceKind.explicitOverride := by
  decide

/-- C5 as amended: for every key with no explicit override that is set in at
least one source, the reported source is the highest-precedence set source in
the order environment variable > config file > default; when an explicit
override is set, the report instead names whichever lower-precedence source
holds a textually identical value. -/
theorem C5_reported_source (ks : KeyState) (hx : ks.explicitVal = none)
    (hset : ks.envVal.isSome ∨ ks.fileVal.isSome ∨ ks.defaultVal.isSome) :
    reportedKind (reportFor ks) = specHighestSource ks := by
  rcases ks with ⟨e, env, file, dflt⟩
  simp only at hx
  subst hx
  rcases env with _ | a <;> rcases file with _ | b <;> rcases dflt with _ | c <;>
    simp_all [reportFor, getConfigSource, viperResolve, compareValues,
      specHighestSource, reportedKind]

/-- Witness for C5 at a key set only through the environment. -/
theorem C5_reported_source_witness :
    reportedKind (reportFor ⟨none, some "a", none, none⟩) =
      specHighestSource ⟨none, some "a", none, none⟩ :=
  C5_reported_source ⟨none, some "a", none, none⟩ rfl (Or.inl rfl)

namespace HiveLogin

/-- Target cluster the resolution oracle returns in the concrete worlds; note
its internal id differs from the flag value of the worlds below. -/
def okCluster : Cluster := ⟨"1a2b3c4d5e6f7g8h9i0j1k2l3m4n5o6p", "target-name"⟩

/-- Hive cluster the hive discovery oracle returns in the concrete worlds. -/
def okHiveCluster : Cluster := ⟨"9z8y7x6w5v4u3t2s1r0q9p8o7n6m5l4k", "hive-name"⟩

/-- Hive OCM config parsed from the override file in the concrete worlds; its
URL field is u1. -/
def fileCfg : Config := ⟨"file-access", "file-refresh", "u1", "file-id", "file-secret"⟩

/-- OCM config built from the environment in the concrete worlds. -/
def envCfg : Config := ⟨"env-access", "env-refresh", "env-url", "env-id", "env-secret"⟩

/-- World in which every external call succeeds and no hive override input is
set. -/
def okWorld : World where
  clusterIDFlag := "my-cluster"
  hiveOcmURLFlag := ""
  hiveOcmConfigPath := ""
  viperHiveOcmURL := ""
  createConnectionR := .ok ()
  getClusterAnyStatusR := .ok okCluster
  getOcmConfigFromFilePathR := .ok fileCfg
  getOCMConfigFromEnvR := .ok envCfg
  getOCMSdkConnBuilderR := .ok ()
  hiveBuilderBuildR := .ok ()
  getHiveClusterR := .ok ()
  getHiveClusterWithConnR := .ok okHiveCluster
  k8sNewR := .ok ()
  k8sNewWithConnR := .ok ()
  k8sNewAdminR := .ok ()
  getClusterDeployment1R := .ok ()
  getClusterDeployment2R := .ok ()
  kubeCfgClientR := .ok ()
  kubeCfgClientWithConnR := .ok ()
  kubeCfgClientElevR := .ok ()
  kubeCfgClientWithConnElevR := .ok ()
  listNamespaces1R := .ok ()
  listNamespaces2R := .ok ()
  listPods1R := .ok ()
  listPods2R := .ok ()
  getHiveBP1R := .ok ()
  getHiveBP2R := .ok ()
  dumpCOR := fun _ => .ok ()

/-- World with all three hive inputs present at once: a config file path, a
URL override (u2), and the target connection. -/
def bothOverridesWorld : World :=
  { okWorld with hiveOcmConfigPath := "hive-ocm.json", hiveOcmURLFlag := "u2" }

/-- World with only the hive config file path set. -/
def filePathWorld : World := { okWorld with hiveOcmConfigPath := "hive-ocm.json" }

/-- World in which the first `GetKubeConfigAndClient` call fails while every
other call succeeds. -/
def discardedErrWorld : World :=
  { okWorld with kubeCfgClientR := .error "kubeconfig build failed" }

end HiveLogin

open HiveLogin

/-- C1 counterexample: with the config file path, the URL override and the
target connection all present at once, the config actually used for the hive
connection is not the one parsed from the file path — its URL field has been
replaced by the URL override. -/
theorem C1_counterexample :
    (HiveLogin.run bothOverridesWorld).hiveConfigUsed ≠ some fileCfg ∧
    (HiveLogin.run bothOverridesWorld).hiveConfigUsed =
      some { fileCfg with url := "u2" } := by
  constructor
  · decide
  · rfl

/-- C3: with a separate hive config file, the run opens two SDK connections —
the target connection and the hive connection built from the config — but the
exit path closes only the target connection (its `defer`); the hive connection
is never closed, even on the fully successful run, contradicting the claim and
the repository README note that temporary OCM connections are cleaned up on
exit. -/
theorem C3_hive_connection_leak :
    (HiveLogin.run filePathWorld).result = .ok () ∧
    (HiveLogin.run filePathWorld).opened = [ConnName.target, ConnName.hive] ∧
    (HiveLogin.run filePathWorld).closed = [ConnName.target] :=
  ⟨rfl, rfl, rfl⟩

/-- C7: when the first `GetKubeConfigAndClient` call fails, its error is
discarded (the `err` variable is immediately overwritten by the next
assignment in the source), the following `dumpClusterOperators` step is still
attempted, and the run completes with a success result — so the claimed
fail-fast termination and nonzero exit on the first error do not hold. -/
theorem C7_error_discarded :
    discardedErrWorld.kubeCfgClientR = .error "kubeconfig build failed" ∧
    Step.dumpClusterOperators 3 ∈ (HiveLogin.run discardedErrWorld).steps ∧
    (HiveLogin.run discardedErrWorld).result = .ok () := by
  refine ⟨rfl, ?_, rfl⟩
  decide

namespace HiveLogin

/-- Projections of a successful-preamble run onto its hive phase: the hive
config used, the reuse flag and the step trace of `run` come from
`runHivePhase` after the two preamble steps. -/
theorem run_proj (w : World) (c : Cluster)
    (h1 : w.createConnectionR = .ok ())
    (h2 : w.getClusterAnyStatusR = .ok c) :
    (run w).hiveConfigUsed =
      (runHivePhase w (effectiveHiveURL w) c.id).hiveConfigUsed ∧
    (run w).hiveReused = (runHivePhase w (effectiveHiveURL w) c.id).hiveReused ∧
    (run w).steps = Step.createConnection ::
      Step.getClusterAnyStatus w.clusterIDFlag ::
      (runHivePhase w (effectiveHiveURL w) c.id).steps := by
  refine ⟨?_, ?_, ?_⟩ <;> simp [run, h1, h2]

/-- With a config present, the hive phase records that config as the one used
for the connection build and never reports reuse of the target connection. -/
theorem runHivePhase_hiveConfigUsed (w : World) (effURL cid : String) (cfg : Config)
    (h : (buildHiveCfg w effURL).2 = .ok (some cfg)) :
    (runHivePhase w effURL cid).hiveConfigUsed = some cfg ∧
    (runHivePhase w effURL cid).hiveReused ≠ some true := by
  rcases hb : buildHiveCfg w effURL with ⟨s1, r1⟩
  rw [hb] at h
  simp only at h
  subst h
  rcases ho : w.getOCMSdkConnBuilderR with e | u <;>
    simp only [runHivePhase, hb, ho]
  · simp
  · rcases hd : w.hiveBuilderBuildR with e2 | u2 <;> simp only [hd]
    · simp
    · rcases hh : w.getHiveClusterWithConnR with e3 | hc <;>
        simp [afterHiveConn, hh]

/-- With no config, the hive phase reuses the target connection and records no
config. -/
theorem runHivePhase_reuse (w : World) (effURL cid : String)
    (h : buildHiveCfg w effURL = ([], .ok none)) :
    (runHivePhase w effURL cid).hiveReused = some true ∧
    (runHivePhase w effURL cid).hiveConfigUsed = none := by
  rcases hg : w.getHiveClusterR with e | u <;>
    simp only [runHivePhase, h, hg]
  · simp
  · rcases hh : w.getHiveClusterWithConnR with e3 | hc <;>
      simp [afterHiveConn, hh]

/-- Reuse of the target connection is reported only when the config
computation produced no config. -/
theorem runHivePhase_reused_true_inv (w : World) (effURL cid : String)
    (h : (runHivePhase w effURL cid).hiveReused = some true) :
    (buildHiveCfg w effURL).2 = .ok none := by
  rcases hb : buildHiveCfg w effURL with ⟨s1, r1⟩
  rcases r1 with e | oc
  · simp [runHivePhase, hb] at h
  · rcases oc with _ | cfg
    · simp
    · exfalso
      rcases ho : w.getOCMSdkConnBuilderR with e | u <;>
        simp only [runHivePhase, hb, ho] at h
      · simp at h
      · rcases hd : w.hiveBuilderBuildR with e2 | u2 <;> simp only [hd] at h
        · simp at h
        · rcases hh : w.getHiveClusterWithConnR with e3 | hc <;>
            simp [afterHiveConn, hh] at h

/-- The config computation with neither input set takes no step and yields no
config. -/
theorem buildHiveCfg_none_inputs (w : World) (effURL : String)
    (hp : w.hiveOcmConfigPath = "") (hu : effURL = "") :
    buildHiveCfg w effURL = ([], .ok none) := by
  have h0 : w.hiveOcmConfigPath.length = 0 := by rw [hp]; rfl
  have h1 : effURL.length = 0 := by rw [hu]; rfl
  simp [buildHiveCfg, h0, h1]

/-- With no file path but a URL override, the config computation builds the
environment config with its URL field replaced by the override. -/
theorem buildHiveCfg_env (w : World) (effURL : String) (ecfg : Config)
    (hp : w.hiveOcmConfigPath = "") (hu : effURL ≠ "")
    (he : w.getOCMConfigFromEnvR = .ok ecfg) :
    buildHiveCfg w effURL =
      ([.getOCMConfigFromEnv], .ok (some { ecfg with url := effURL })) := by
  have h0 : w.hiveOcmConfigPath.length = 0 := by rw [hp]; rfl
  have h1 := Broker.length_pos_of_ne_empty hu
  simp [buildHiveCfg, h0, h1, he]

/-- With a file path, the config computation loads the file config and, when a
URL override is present, replaces exactly its URL field. -/
theorem buildHiveCfg_file (w : World) (effURL : String) (cfg : Config)
    (hp : w.hiveOcmConfigPath ≠ "")
    (hf : w.getOcmConfigFromFilePathR = .ok cfg) :
    buildHiveCfg w effURL =
      ([.getOcmConfigFromFilePath w.hiveOcmConfigPath],
        .ok (some (if effURL = "" then cfg else { cfg with url := effURL }))) := by
  have h1 := Broker.length_pos_of_ne_empty hp
  by_cases hu : effURL = ""
  · have h0 : effURL.length = 0 := by rw [hu]; rfl
    simp [buildHiveCfg, h1, h0, hf, hu]
  · have h2 := Broker.length_pos_of_ne_empty hu
    simp [buildHiveCfg, h1, h2, hf, hu]

/-- The config computation yields no config only when both the file path and
the URL override are absent. -/
theorem buildHiveCfg_ok_none_inv (w : World) (effURL : String)
    (h : (buildHiveCfg w effURL).2 = .ok none) :
    w.hiveOcmConfigPath = "" ∧ effURL = "" := by
  by_cases hp : w.hiveOcmConfigPath.length > 0
  · exfalso
    rcases hf : w.getOcmConfigFromFilePathR with e | cfg
    · simp [buildHiveCfg, hp, hf] at h
    · by_cases hu : effURL.length > 0 <;> simp [buildHiveCfg, hp, hf, hu] at h
  · have hp0 : w.hiveOcmConfigPath = "" :=
      Broker.eq_empty_of_length_eq_zero (by omega)
    by_cases hu : effURL.length > 0
    · exfalso
      rcases he : w.getOCMConfigFromEnvR with e | ecfg <;>
        simp [buildHiveCfg, hp, he, hu] at h
    · exact ⟨hp0, Broker.eq_empty_of_length_eq_zero (by omega)⟩

/-- A run reports reuse of the target connection only when the hive config
file path, the URL flag and the viper URL key are all empty. -/
theorem run_reused_true_inv (w : World)
    (h : (run w).hiveReused = some true) :
    w.hiveOcmConfigPath = "" ∧ w.hiveOcmURLFlag = "" ∧ w.viperHiveOcmURL = "" := by
  rcases h1 : w.createConnectionR with e | u
  · simp [run, h1] at h
  · rcases h2 : w.getClusterAnyStatusR with e | c
    · simp [run, h1, h2] at h
    · have hr : (runHivePhase w (effectiveHiveURL w) c.id).hiveReused = some true := by
        have := (run_proj w c h1 h2).2.1
        rw [← this]; exact h
      have hb := runHivePhase_reused_true_inv w (effectiveHiveURL w) c.id hr
      have hpe := buildHiveCfg_ok_none_inv w (effectiveHiveURL w) hb
      refine ⟨hpe.1, ?_, ?_⟩
      · by_contra hflag
        have hpos := Broker.length_pos_of_ne_empty hflag
        have : effectiveHiveURL w = w.hiveOcmURLFlag := by
          simp [effectiveHiveURL, hpos]
        rw [this] at hpe
        exact hflag hpe.2
      · by_cases hflag : w.hiveOcmURLFlag.length > 0
        · exfalso
          have : effectiveHiveURL w = w.hiveOcmURLFlag := by
            simp [effectiveHiveURL, hflag]
          rw [this] at hpe
          have := Broker.length_pos_of_ne_empty (s := w.hiveOcmURLFlag)
          rw [hpe.2] at hflag
          simp [String.length] at hflag
        · have : effectiveHiveURL w = w.viperHiveOcmURL := by
            simp [effectiveHiveURL, hflag]
          rw [this] at hpe
          exact hpe.2

end HiveLogin

/-- C1 as amended: Hive discovery orders its sources file path > URL override
> reuse of the target connection for choosing the base config, but when both a
file path and a URL override are present the config actually used is the
file-path config with exactly its URL field replaced by the override (all
other fields coming from the file); the target connection is not reused. -/
theorem C1_file_path_preference (w : World) (c : Cluster) (cfg : Config)
    (h1 : w.createConnectionR = .ok ())
    (h2 : w.getClusterAnyStatusR = .ok c)
    (h3 : w.hiveOcmConfigPath ≠ "")
    (h4 : w.getOcmConfigFromFilePathR = .ok cfg) :
    (HiveLogin.run w).hiveConfigUsed =
      some (if effectiveHiveURL w = "" then cfg
            else { cfg with url := effectiveHiveURL w }) ∧
    (HiveLogin.run w).hiveReused ≠ some true := by
  have hproj := run_proj w c h1 h2
  have hb := buildHiveCfg_file w (effectiveHiveURL w) cfg h3 h4
  have h5 := runHivePhase_hiveConfigUsed w (effectiveHiveURL w) c.id _ (by rw [hb])
  rw [hproj.1, hproj.2.1]
  exact h5

/-- Witness for C1 with all three hive inputs present at once: the config used
is the file config with its URL replaced by the override u2. -/
theorem C1_file_path_preference_witness :
    (HiveLogin.run bothOverridesWorld).hiveConfigUsed =
      some (if effectiveHiveURL bothOverridesWorld = "" then fileCfg
            else { fileCfg with url := effectiveHiveURL bothOverridesWorld }) ∧
    (HiveLogin.run bothOverridesWorld).hiveReused ≠ some true :=
  C1_file_path_preference bothOverridesWorld okCluster fileCfg rfl rfl
    (by decide) rfl

/-- C10: with the URL flag empty, the run falls back to the viper key
`hive_ocm_url` as the hive URL override — with only the viper key set, the
hive config is the environment config with its URL replaced by the viper value
and the target connection is not reused — and the run reuses the target
cluster's connection exactly when the file path, the flag and the viper key
are all empty. -/
theorem C10_hive_url_fallback (w : World) (c : Cluster) (ecfg : Config)
    (h1 : w.createConnectionR = .ok ())
    (h2 : w.getClusterAnyStatusR = .ok c) :
    (w.hiveOcmURLFlag = "" → effectiveHiveURL w = w.viperHiveOcmURL) ∧
    (w.hiveOcmConfigPath = "" → w.hiveOcmURLFlag = "" → w.viperHiveOcmURL ≠ "" →
      w.getOCMConfigFromEnvR = .ok ecfg →
      (HiveLogin.run w).hiveConfigUsed =
        some { ecfg with url := w.viperHiveOcmURL } ∧
      (HiveLogin.run w).hiveReused ≠ some true) ∧
    (w.hiveOcmConfigPath = "" → w.hiveOcmURLFlag = "" → w.viperHiveOcmURL = "" →
      (HiveLogin.run w).hiveReused = some true ∧
      (HiveLogin.run w).hiveConfigUsed = none) ∧
    ((HiveLogin.run w).hiveReused = some true →
      w.hiveOcmConfigPath = "" ∧ w.hiveOcmURLFlag = "" ∧ w.viperHiveOcmURL = "") := by
  have heff : w.hiveOcmURLFlag = "" → effectiveHiveURL w = w.viperHiveOcmURL := by
    intro hf
    have h0 : w.hiveOcmURLFlag.length = 0 := by rw [hf]; rfl
    simp [effectiveHiveURL, h0]
  refine ⟨heff, ?_, ?_, run_reused_true_inv w⟩
  · intro hp hf hv he
    have hproj := run_proj w c h1 h2
    have hb := buildHiveCfg_env w (effectiveHiveURL w) ecfg hp
      (by rw [heff hf]; exact hv) he
    have h5 := runHivePhase_hiveConfigUsed w (effectiveHiveURL w) c.id _ (by rw [hb])
    rw [hproj.1, hproj.2.1, ← heff hf]
    exact h5
  · intro hp hf hv
    have hproj := run_proj w c h1 h2
    have hb := buildHiveCfg_none_inputs w (effectiveHiveURL w) hp
      (by rw [heff hf]; exact hv)
    have h5 := runHivePhase_reuse w (effectiveHiveURL w) c.id hb
    rw [hproj.1, hproj.2.1]
    exact ⟨h5.1, h5.2⟩

/-- Witness for C10 in a world where only the viper key is set: the hive
config is the environment config with the viper URL. -/
theorem C10_hive_url_fallback_witness :
    (HiveLogin.run { okWorld with viperHiveOcmURL := "vip-url" }).hiveConfigUsed =
      some { envCfg with url := "vip-url" } ∧
    (HiveLogin.run { okWorld with viperHiveOcmURL := "vip-url" }).hiveReused ≠
      some true :=
  (C10_hive_url_fallback { okWorld with viperHiveOcmURL := "vip-url" }
    okCluster envCfg rfl rfl).2.1 rfl rfl (by decide) rfl

namespace HiveLogin

/-- Every step the linear sequence attempts comes from one of its acts. -/
theorem runSeq_steps_sub (acts : List Act) :
    ∀ s ∈ (runSeq acts).1, ∃ a ∈ acts, a.step = s := by
  induction acts with
  | nil =>
      intro s hs
      simp [runSeq] at hs
  | cons a rest ih =>
      intro s hs
      rcases hk : a.kind with _ | _
      · rcases hr : a.result with e | u
        · simp only [runSeq, hk, hr, List.mem_singleton] at hs
          exact ⟨a, by simp, hs.symm⟩
        · simp only [runSeq, hk, hr, List.mem_cons] at hs
          rcases hs with rfl | hs
          · exact ⟨a, by simp, rfl⟩
          · obtain ⟨b, hb, hbs⟩ := ih s hs
            exact ⟨b, by simp [hb], hbs⟩
      · simp only [runSeq, hk, List.mem_cons] at hs
        rcases hs with rfl | hs
        · exact ⟨a, by simp, rfl⟩
        · obtain ⟨b, hb, hbs⟩ := ih s hs
          exact ⟨b, by simp [hb], hbs⟩

/-- Every test-phase act that carries a target-cluster identifier carries the
resolved cluster id. -/
theorem testActs_target (w : World) (cid : String) (hc : Cluster) (effURL : String) :
    ∀ a ∈ testActs w cid hc effURL,
      targetIdOf a.step = none ∨ targetIdOf a.step = some cid := by
  intro a ha
  simp only [testActs, List.mem_cons, List.not_mem_nil, or_false] at ha
  rcases ha with rfl|rfl|rfl|rfl|rfl|rfl|rfl|rfl|rfl|rfl|rfl|rfl|rfl|rfl|rfl|rfl|
    rfl|rfl|rfl|rfl|rfl|rfl|rfl <;> simp [targetIdOf]

/-- The config-computation steps carry no target-cluster identifier. -/
theorem buildHiveCfg_steps_no_target (w : World) (effURL : String) :
    ∀ s ∈ (buildHiveCfg w effURL).1, targetIdOf s = none := by
  by_cases hp : w.hiveOcmConfigPath.length > 0
  · rcases hf : w.getOcmConfigFromFilePathR with e | cfg
    · simp [buildHiveCfg, hp, hf, targetIdOf]
    · by_cases hu : effURL.length > 0 <;>
        simp [buildHiveCfg, hp, hf, hu, targetIdOf]
  · by_cases hu : effURL.length > 0
    · rcases he : w.getOCMConfigFromEnvR with e | ecfg <;>
        simp [buildHiveCfg, hp, he, hu, targetIdOf]
    · simp [buildHiveCfg, hp, hu]

/-- Every step after the hive connection is decided carries either no
target-cluster identifier or the resolved cluster id, provided the preceding
steps do. -/
theorem afterHiveConn_target (w : World) (effURL cid : String) (prev : List Step)
    (opened : List ConnName) (cfgUsed : Option Config) (reused : Option Bool)
    (hprev : ∀ s ∈ prev, targetIdOf s = none ∨ targetIdOf s = some cid) :
    ∀ s ∈ (afterHiveConn w effURL cid prev opened cfgUsed reused).steps,
      targetIdOf s = none ∨ targetIdOf s = some cid := by
  intro s hs
  rcases hh : w.getHiveClusterWithConnR with e | hc <;>
    simp only [afterHiveConn, hh] at hs
  · rcases List.mem_append.mp hs with h | h
    · exact hprev s h
    · simp only [List.mem_singleton] at h
      subst h
      simp [targetIdOf]
  · rcases List.mem_append.mp hs with h | h
    · rcases List.mem_append.mp h with h2 | h2
      · exact hprev s h2
      · simp only [List.mem_singleton] at h2
        subst h2
        simp [targetIdOf]
    · obtain ⟨a, ha, rfl⟩ := runSeq_steps_sub _ s h
      exact testActs_target w cid hc effURL a ha

/-- Every hive-phase step carries either no target-cluster identifier or the
resolved cluster id. -/
theorem runHivePhase_target (w : World) (effURL cid : String) :
    ∀ s ∈ (runHivePhase w effURL cid).steps,
      targetIdOf s = none ∨ targetIdOf s = some cid := by
  intro s hs
  rcases hb : buildHiveCfg w effURL with ⟨s1, r1⟩
  have hb1 : ∀ t ∈ s1, targetIdOf t = none := by
    have h0 := buildHiveCfg_steps_no_target w effURL
    rw [hb] at h0
    exact h0
  rcases r1 with e | oc
  · simp only [runHivePhase, hb] at hs
    exact Or.inl (hb1 s hs)
  · rcases oc with _ | cfg
    · rcases hg : w.getHiveClusterR with e | u <;>
        simp only [runHivePhase, hb, hg] at hs
      · rcases List.mem_append.mp hs with h | h
        · exact Or.inl (hb1 s h)
        · simp only [List.mem_singleton] at h
          subst h
          simp [targetIdOf]
      · refine afterHiveConn_target w effURL cid _ _ _ _ ?_ s hs
        intro t ht
        rcases List.mem_append.mp ht with h | h
        · exact Or.inl (hb1 t h)
        · simp only [List.mem_singleton] at h
          subst h
          simp [targetIdOf]
    · rcases ho : w.getOCMSdkConnBuilderR with e | u <;>
        simp only [runHivePhase, hb, ho] at hs
      · rcases List.mem_append.mp hs with h | h
        · exact Or.inl (hb1 s h)
        · simp only [List.mem_singleton] at h
          subst h
          simp [targetIdOf]
      · rcases hd : w.hiveBuilderBuildR with e2 | u2 <;>
          simp only [hd] at hs
        · rcases List.mem_append.mp hs with h | h
          · exact Or.inl (hb1 s h)
          · simp only [List.mem_cons, List.not_mem_nil, or_false] at h
            rcases h with rfl | rfl <;> simp [targetIdOf]
        · refine afterHiveConn_target w effURL cid _ _ _ _ ?_ s hs
          intro t ht
          rcases List.mem_append.mp ht with h | h
          · exact Or.inl (hb1 t h)
          · simp only [List.mem_cons, List.not_mem_nil, or_false] at h
            rcases h with rfl | rfl <;> simp [targetIdOf]

end HiveLogin

/-- C9: after the target cluster is resolved, every later step of the run that
carries a target-cluster identifier — hive discovery, the target client
builds, the clientset builds, the hive backplane builds and the
cluster-deployment lookups — carries the resolved cluster record's internal
id, whatever identifier shape the user supplied in the flag. -/
theorem C9_internal_id_used (w : World) (c : Broker.Cluster)
    (h1 : w.createConnectionR = .ok ())
    (h2 : w.getClusterAnyStatusR = .ok c) :
    ∀ s ∈ (HiveLogin.run w).steps, ∀ i, targetIdOf s = some i → i = c.id := by
  intro s hs i hi
  rw [(run_proj w c h1 h2).2.2] at hs
  simp only [List.mem_cons] at hs
  rcases hs with rfl | rfl | hs
  · simp [targetIdOf] at hi
  · simp [targetIdOf] at hi
  · rcases runHivePhase_target w (effectiveHiveURL w) c.id s hs with h | h
    · rw [h] at hi
      cases hi
    · rw [h] at hi
      injection hi with hi
      exact hi.symm

/-- Witness for C9: in the all-success world whose flag identifier differs
from the resolved internal id, the target kube-client build step carries the
internal id. -/
theorem C9_internal_id_used_witness :
    Step.k8sNew okCluster.id ∈ (HiveLogin.run okWorld).steps ∧
    (∀ i, targetIdOf (Step.k8sNew okCluster.id) = some i → i = okCluster.id) :=
  ⟨by decide,
   fun i hi => C9_internal_id_used okWorld okCluster rfl rfl
     (Step.k8sNew okCluster.id) (by decide) i hi⟩
